import Mathlib

/-!
Shallow embedding of `sphinxcontrib-typst-math` (file
`src/sphinxcontrib/typst_math/__init__.py`), centred on
`TypstMathDirective.run`.  The directive builds a templated Typst document
from its content lines, names the output artifact by the SHA-1 hex digest of
the document's UTF-8 bytes, ensures the cache directory exists, invokes the
external `typst` compiler as a subprocess with the document on standard
input, and returns a single image node.
-/

/-! ### SHA-1 (as used via `hashlib.sha1(...).hexdigest()`) -/

/-- Truncation to a 32-bit word, `n % 2^32`. -/
def w32 (n : Nat) : Nat := n % 4294967296

/-- Left rotation of a 32-bit word by `s` bits. -/
def rotl (s n : Nat) : Nat := ((n <<< s) % 4294967296) ||| (n >>> (32 - s))

/-- Big-endian byte decomposition of `n` into `k` bytes. -/
def beBytes (k n : Nat) : List Nat :=
  match k with
  | 0 => []
  | k + 1 => ((n >>> (8 * k)) % 256) :: beBytes k n

/-- SHA-1 message padding: append `0x80`, zeros to 56 mod 64, then the
64-bit big-endian bit length. -/
def sha1pad (msg : List Nat) : List Nat :=
  msg ++ [128] ++ List.replicate ((119 - msg.length % 64) % 64) 0
      ++ beBytes 8 (8 * msg.length)

/-- Group a byte list into big-endian 32-bit words (four bytes each). -/
def toWords : List Nat → List Nat
  | a :: b :: c :: d :: rest =>
      (a * 16777216 + b * 65536 + c * 256 + d) :: toWords rest
  | _ => []

/-- Message-schedule expansion: extend the word list `t` times, each new word
being `rotl 1` of the XOR of the words 3, 8, 14 and 16 positions back. -/
def sha1Expand (ws : List Nat) : Nat → List Nat
  | 0 => ws
  | t + 1 =>
      let n := ws.length
      sha1Expand
        (ws ++ [rotl 1 ((((ws.getD (n - 3) 0) ^^^ (ws.getD (n - 8) 0)) ^^^
          ((ws.getD (n - 14) 0)) ^^^ (ws.getD (n - 16) 0)))]) t

/-- Round function of SHA-1. -/
def sha1f (t b c d : Nat) : Nat :=
  if t < 20 then (b &&& c) ||| ((4294967295 ^^^ b) &&& d)
  else if t < 40 then (b ^^^ c) ^^^ d
  else if t < 60 then ((b &&& c) ||| (b &&& d)) ||| (c &&& d)
  else (b ^^^ c) ^^^ d

/-- Round constants of SHA-1. -/
def sha1k (t : Nat) : Nat :=
  if t < 20 then 1518500249
  else if t < 40 then 1859775393
  else if t < 60 then 2400959708
  else 3395469782

/-- The 80 compression rounds over the expanded schedule. -/
def sha1Rounds (t : Nat) (ws : List Nat) (a b c d e : Nat) :
    Nat × Nat × Nat × Nat × Nat :=
  match ws with
  | [] => (a, b, c, d, e)
  | w :: rest =>
      sha1Rounds (t + 1) rest
        (w32 (rotl 5 a + sha1f t b c d + e + sha1k t + w)) a (rotl 30 b) c d

/-- Process one 64-byte chunk, updating the five state words. -/
def sha1Chunk (h : Nat × Nat × Nat × Nat × Nat) (chunk : List Nat) :
    Nat × Nat × Nat × Nat × Nat :=
  match h with
  | (h0, h1, h2, h3, h4) =>
      match sha1Rounds 0 (sha1Expand (toWords chunk) 64) h0 h1 h2 h3 h4 with
      | (a, b, c, d, e) =>
          (w32 (h0 + a), w32 (h1 + b), w32 (h2 + c), w32 (h3 + d), w32 (h4 + e))

/-- Split a byte list into 64-byte chunks (fuelled to stay structural). -/
def chunks64Aux (fuel : Nat) (l : List Nat) : List (List Nat) :=
  match fuel with
  | 0 => []
  | f + 1 =>
      match l with
      | [] => []
      | _ => l.take 64 :: chunks64Aux f (l.drop 64)

/-- Split a byte list into 64-byte chunks. -/
def chunks64 (l : List Nat) : List (List Nat) := chunks64Aux l.length l

/-- Fold the chunk compression over all chunks. -/
def sha1Fold : List (List Nat) → Nat × Nat × Nat × Nat × Nat →
    Nat × Nat × Nat × Nat × Nat
  | [], h => h
  | c :: cs, h => sha1Fold cs (sha1Chunk h c)

/-- The SHA-1 initial state. -/
def sha1Init : Nat × Nat × Nat × Nat × Nat :=
  (1732584193, 4023233417, 2562383102, 271733878, 3285377520)

/-- The 160-bit SHA-1 digest of a byte list, as a natural number
(big-endian concatenation of the five state words). -/
def sha1Nat (msg : List Nat) : Nat :=
  match sha1Fold (chunks64 (sha1pad msg)) sha1Init with
  | (h0, h1, h2, h3, h4) =>
      (((h0 * 4294967296 + h1) * 4294967296 + h2) * 4294967296 + h3)
        * 4294967296 + h4

/-- Lowercase hex character for a nibble. -/
def hexChar (n : Nat) : Char :=
  if n < 10 then Char.ofNat (48 + n) else Char.ofNat (87 + n)

/-- Fixed-width big-endian lowercase hex rendering of `n` with `k` digits. -/
def toHexFixed (k n : Nat) : List Char :=
  match k with
  | 0 => []
  | k + 1 => hexChar ((n >>> (4 * k)) % 16) :: toHexFixed k n

/-- Python `hashlib.sha1(bytes).hexdigest()`: 40 lowercase hex characters. -/
def sha1hex (msg : List Nat) : String := ⟨toHexFixed 40 (sha1Nat msg)⟩

/-! ### UTF-8 encoding (`str.encode()`) -/

/-- UTF-8 encoding of a single code point. -/
def utf8Char (n : Nat) : List Nat :=
  if n < 128 then [n]
  else if n < 2048 then [192 + n / 64, 128 + n % 64]
  else if n < 65536 then [224 + n / 4096, 128 + n / 64 % 64, 128 + n % 64]
  else [240 + n / 262144, 128 + n / 4096 % 64, 128 + n / 64 % 64, 128 + n % 64]

/-- UTF-8 encoding of a character list. -/
def utf8Bytes : List Char → List Nat
  | [] => []
  | c :: cs => utf8Char c.toNat ++ utf8Bytes cs

/-- Python `s.encode()`: the UTF-8 bytes of a string. -/
def strBytes (s : String) : List Nat := utf8Bytes s.data

/-! ### The templated Typst document -/

/-- Python `"\n".join(lines)`. -/
def joinNl : List String → String
  | [] => ""
  | [s] => s
  | s :: rest => s ++ "\n" ++ joinNl rest

/-- The f-string
`f"#set page(width: auto, height: auto, margin: 3.14pt)\n\n$ \x7b'\n'.join(self.content)\x7d $"`. -/
def typstDoc (content : List String) : String :=
  "#set page(width: auto, height: auto, margin: 3.14pt)\n\n$ " ++
    joinNl content ++ " $"

/-! ### `pathlib` paths (only the parts `run` uses) -/

/-- Index of the last `'.'` in a character list, if any. -/
def rfindDot : List Char → Option Nat
  | [] => none
  | c :: rest =>
      match rfindDot rest with
      | some i => some (i + 1)
      | none => if c = '.' then some 0 else none

/-- Python `PurePath.with_suffix` applied to a file name: replace the part from the
last dot on (a dot at position 0 does not start a suffix), else append. -/
def nameWithSuffix (name ext : String) : String :=
  match rfindDot name.data with
  | some i =>
      if 0 < i then ⟨name.data.take i ++ ext.data⟩ else ⟨name.data ++ ext.data⟩
  | none => ⟨name.data ++ ext.data⟩

/-- A `pathlib` path, kept as parent-directory string plus final name. -/
structure PyPath where
  dir : String
  name : String
deriving DecidableEq, Repr

/-- Python `Path.with_suffix`: only the final component changes. -/
def PyPath.withSuffix (p : PyPath) (ext : String) : PyPath :=
  ⟨p.dir, nameWithSuffix p.name ext⟩

/-- Python `str(path)`. -/
def PyPath.str (p : PyPath) : String := p.dir ++ "/" ++ p.name

/-! ### The directive's `run` method as a trace-producing function -/

/-- A docutils image node as `run` populates it: `uri`, `classes` (a list the
code appends `"typst-math"` to), and `align`. -/
structure ImageNode where
  uri : String
  classes : List String
  align : String
deriving DecidableEq, Repr

/-- Observable side effects of `run`, in program order. -/
inductive Event where
  | checkDirExists (path : String)
  | mkdirParents (path : String)
  | spawn (command : List String) (cwd : String)
  | writeStdinAndWait (bytes : List Nat)
deriving DecidableEq, Repr

/-- Errors `run` can surface.  `popenInvalidProgram` models the generic
`TypeError` that `subprocess.Popen` raises when the program element of the
argument list is `None` (which is what `shutil.which` returns for a missing
executable).  `compilerUnavailable` is the distinct error kind the spec asks
for; it is listed so that statements can compare against it — the code never
produces it. -/
inductive RunError where
  | popenInvalidProgram
  | compilerUnavailable
deriving DecidableEq, Repr

/-- The outcome of one `run` call: its effect trace plus either the returned
node list or the raised error. -/
structure RunTrace where
  events : List Event
  result : Except RunError (List ImageNode)
deriving Repr

/-- Everything the environment supplies to one `run` call.  `whichTypst` is
the result of `shutil.which(self.config.typst_math_typst)`; `dirExists` is
what `tmpdir.exists()` reports; `artifactExists` records whether the target
artifact file is already on disk (the code never consults this); `exitStatus`
is the compiler subprocess's exit status (the code never consults this
either). -/
structure RunInput where
  content : List String
  format : String
  outdir : String
  whichTypst : Option String
  dirExists : Bool
  artifactExists : Bool
  exitStatus : Int
deriving Repr

/-- The cache directory `tmpdir = Path(self.env.app.builder.outdir) / "assets" / "typst_math"`. -/
def tmpdir (outdir : String) : String := outdir ++ "/assets/typst_math"

/-- Embedding of `TypstMathDirective.run`, line by line:

* `typst = shutil.which(self.config.typst_math_typst)`
* `typst_doc = f"#set page(...)\n\n$ \x7b'\n'.join(self.content)\x7d $"`
* `if not tmpdir.exists(): tmpdir.mkdir(parents=True)`
* `filename = sha1(typst_doc.encode(), usedforsecurity=False).hexdigest()`
* `command = [typst, "compile", "-"]` plus the suffixed path chosen by
  `self.env.app.builder.format`
* `proc = subprocess.Popen(command, cwd=tmpdir, stdin=subprocess.PIPE)` —
  raises `TypeError` when `typst` is `None`
* `proc.communicate(typst_doc.encode())` — writes stdin and waits
* one `nodes.image()` with `uri`, `classes`, `align` set.
-/
def run (i : RunInput) : RunTrace :=
  let typst := i.whichTypst
  let typst_doc := typstDoc i.content
  let dir := tmpdir i.outdir
  let dirEvents := Event.checkDirExists dir ::
    (if i.dirExists then [] else [Event.mkdirParents dir])
  let filename := sha1hex (strBytes typst_doc)
  let filepath : PyPath := ⟨dir, filename⟩
  let outPath :=
    if i.format = "html" then (filepath.withSuffix ".svg").str
    else if i.format = "pdf" then (filepath.withSuffix ".pdf").str
    else (filepath.withSuffix ".png").str
  match typst with
  | none =>
      { events := dirEvents, result := Except.error RunError.popenInvalidProgram }
  | some t =>
      { events := dirEvents ++
          [Event.spawn [t, "compile", "-", outPath] dir,
           Event.writeStdinAndWait (strBytes typst_doc)],
        result := Except.ok
          [{ uri := (filepath.withSuffix ".*").str,
             classes := ["typst-math"], align := "center" }] }

/-! ### Trace observations -/

/-- The subprocess launches in a trace: their full argument lists and working
directories. -/
def spawnEvents (tr : RunTrace) : List (List String × String) :=
  tr.events.filterMap fun e =>
    match e with
    | Event.spawn c w => some (c, w)
    | _ => none

/-- The byte strings written to subprocess standard input in a trace. -/
def stdinWrites (tr : RunTrace) : List (List Nat) :=
  tr.events.filterMap fun e =>
    match e with
    | Event.writeStdinAndWait b => some b
    | _ => none

/-- The output paths handed to spawned subprocesses (argument 3 of each
launch). -/
def targetPaths (tr : RunTrace) : List String :=
  (spawnEvents tr).map fun p => p.1.getD 3 ""

/-- The directories passed to `mkdir(parents=True)` in a trace. -/
def mkdirCalls (tr : RunTrace) : List Event :=
  tr.events.filter fun e =>
    match e with
    | Event.mkdirParents _ => true
    | _ => false

/-- Whether a directory exists once the trace has been replayed: it existed
before, or some `mkdirParents` for it was performed. -/
def dirExistsAfter (before : Bool) (dir : String) (tr : RunTrace) : Prop :=
  before = true ∨ Event.mkdirParents dir ∈ tr.events

/-- All five state words are 32-bit. -/
def bounded5 (h : Nat × Nat × Nat × Nat × Nat) : Prop :=
  h.1 < 4294967296 ∧ h.2.1 < 4294967296 ∧ h.2.2.1 < 4294967296 ∧
    h.2.2.2.1 < 4294967296 ∧ h.2.2.2.2 < 4294967296

/-- The node list `run` returned (empty when it raised). -/
def resultNodes (tr : RunTrace) : List ImageNode :=
  match tr.result with
  | Except.ok ns => ns
  | Except.error _ => []

/-! ### Helper lemmas -/

set_option maxRecDepth 1000000

theorem strApp (a b : List Char) : (⟨a⟩ : String) ++ ⟨b⟩ = ⟨a ++ b⟩ := rfl

theorem strDataApp (s t : String) : (s ++ t).data = s.data ++ t.data := by
  cases s; cases t; rfl

theorem strAppAssoc (a b c : String) : a ++ b ++ c = a ++ (b ++ c) := by
  cases a; cases b; cases c
  rw [strApp, strApp, strApp, strApp, List.append_assoc]

theorem hexChar_ne_dot : ∀ d < 16, hexChar d ≠ '.' := by decide

theorem toHexFixed_ne_dot (k : Nat) :
    ∀ (n : Nat), ∀ c ∈ toHexFixed k n, c ≠ '.' := by
  induction k with
  | zero => intro n c hc; simp [toHexFixed] at hc
  | succ k ih =>
      intro n c hc
      rw [toHexFixed] at hc
      rcases List.mem_cons.mp hc with h | h
      · subst h
        exact hexChar_ne_dot _ (Nat.mod_lt _ (by decide))
      · exact ih n c h

theorem rfindDot_eq_none (l : List Char) (h : ∀ c ∈ l, c ≠ '.') :
    rfindDot l = none := by
  induction l with
  | nil => rfl
  | cons c rest ih =>
      rw [rfindDot, ih (fun x hx => h x (List.mem_cons_of_mem c hx))]
      simp [h c (List.mem_cons_self c rest)]

theorem nameWithSuffix_of_no_dot (name ext : String)
    (h : rfindDot name.data = none) : nameWithSuffix name ext = name ++ ext := by
  cases name; cases ext
  rw [nameWithSuffix]
  simp only at h
  rw [h, strApp]

theorem sha1hex_data (m : List Nat) :
    (sha1hex m).data = toHexFixed 40 (sha1Nat m) := rfl

theorem nameWithSuffix_sha1hex (m : List Nat) (ext : String) :
    nameWithSuffix (sha1hex m) ext = sha1hex m ++ ext := by
  apply nameWithSuffix_of_no_dot
  apply rfindDot_eq_none
  rw [sha1hex_data]
  exact toHexFixed_ne_dot 40 (sha1Nat m)

theorem withSuffix_str_sha1hex (d : String) (m : List Nat) (ext : String) :
    ((PyPath.mk d (sha1hex m)).withSuffix ext).str = d ++ "/" ++ sha1hex m ++ ext := by
  rw [PyPath.withSuffix, PyPath.str, nameWithSuffix_sha1hex]
  simp only
  rw [strAppAssoc, strAppAssoc (d ++ "/") (sha1hex m) ext,
    strAppAssoc d "/" (sha1hex m ++ ext)]

/-! ### SHA-1 digests are bounded: the digest space is finite -/

theorem sha1Chunk_bounded (h : Nat × Nat × Nat × Nat × Nat) (c : List Nat) :
    bounded5 (sha1Chunk h c) := by
  obtain ⟨h0, h1, h2, h3, h4⟩ := h
  rw [sha1Chunk]
  rcases sha1Rounds 0 (sha1Expand (toWords c) 64) h0 h1 h2 h3 h4 with
    ⟨a, b, c2, d, e⟩
  exact ⟨Nat.mod_lt _ (by decide), Nat.mod_lt _ (by decide),
    Nat.mod_lt _ (by decide), Nat.mod_lt _ (by decide), Nat.mod_lt _ (by decide)⟩

theorem sha1Fold_bounded (cs : List (List Nat)) (h : Nat × Nat × Nat × Nat × Nat)
    (hb : bounded5 h) : bounded5 (sha1Fold cs h) := by
  induction cs generalizing h with
  | nil => exact hb
  | cons c cs ih => exact ih (sha1Chunk h c) (sha1Chunk_bounded h c)

theorem sha1Nat_lt (msg : List Nat) :
    sha1Nat msg < 1461501637330902918203684832716283019655932542976 := by
  rw [sha1Nat]
  have hb := sha1Fold_bounded (chunks64 (sha1pad msg)) sha1Init
    (by unfold bounded5 sha1Init; decide)
  rcases hE : sha1Fold (chunks64 (sha1pad msg)) sha1Init with ⟨h0, h1, h2, h3, h4⟩
  rw [hE] at hb
  show (((h0 * 4294967296 + h1) * 4294967296 + h2) * 4294967296 + h3)
      * 4294967296 + h4 < 1461501637330902918203684832716283019655932542976
  have b0 : h0 < 4294967296 := hb.1
  have b1 : h1 < 4294967296 := hb.2.1
  have b2 : h2 < 4294967296 := hb.2.2.1
  have b3 : h3 < 4294967296 := hb.2.2.2.1
  have b4 : h4 < 4294967296 := hb.2.2.2.2
  omega

/-! ### UTF-8 facts used for counting documents -/

theorem utf8Bytes_append (l1 l2 : List Char) :
    utf8Bytes (l1 ++ l2) = utf8Bytes l1 ++ utf8Bytes l2 := by
  induction l1 with
  | nil => rfl
  | cons c cs ih => rw [List.cons_append, utf8Bytes, utf8Bytes, ih, List.append_assoc]

theorem strBytes_append (s t : String) :
    strBytes (s ++ t) = strBytes s ++ strBytes t := by
  rw [strBytes, strBytes, strBytes, strDataApp, utf8Bytes_append]

theorem utf8Bytes_replicate_a (n : Nat) :
    utf8Bytes (List.replicate n 'a') = List.replicate n 97 := by
  induction n with
  | zero => rfl
  | succ n ih => rw [List.replicate_succ, List.replicate_succ, utf8Bytes, ih]; rfl

theorem typstDoc_single (s : String) :
    typstDoc [s] =
      "#set page(width: auto, height: auto, margin: 3.14pt)\n\n$ " ++ s ++ " $" := rfl

theorem docBytes_length (n : Nat) :
    (strBytes (typstDoc [⟨List.replicate n 'a'⟩])).length = 58 + n := by
  rw [typstDoc_single, strBytes_append, strBytes_append]
  rw [List.length_append, List.length_append]
  have h1 : (strBytes (⟨List.replicate n 'a'⟩ : String)).length = n := by
    rw [strBytes]
    simp only
    rw [utf8Bytes_replicate_a, List.length_replicate]
  rw [h1]
  have h2 : (strBytes "#set page(width: auto, height: auto, margin: 3.14pt)\n\n$ ").length = 56 := by decide
  have h3 : (strBytes " $").length = 2 := by decide
  rw [h2, h3]
  omega

/-! ### Evaluating `run` on a symbolic input with a resolvable compiler -/

theorem targetPaths_run (lines : List String) (fmt outdir t : String)
    (de ae : Bool) (ex : Int) :
    targetPaths (run ⟨lines, fmt, outdir, some t, de, ae, ex⟩) =
      [outdir ++ "/assets/typst_math" ++ "/" ++
        sha1hex (strBytes (typstDoc lines)) ++
        (if fmt = "html" then ".svg" else if fmt = "pdf" then ".pdf" else ".png")] := by
  have h0 : targetPaths (run ⟨lines, fmt, outdir, some t, de, ae, ex⟩) =
      [if fmt = "html" then
        ((PyPath.mk (tmpdir outdir) (sha1hex (strBytes (typstDoc lines)))).withSuffix ".svg").str
       else if fmt = "pdf" then
        ((PyPath.mk (tmpdir outdir) (sha1hex (strBytes (typstDoc lines)))).withSuffix ".pdf").str
       else
        ((PyPath.mk (tmpdir outdir) (sha1hex (strBytes (typstDoc lines)))).withSuffix ".png").str] := by
    cases de <;> rfl
  rw [h0]
  by_cases h1 : fmt = "html"
  · simp [h1, withSuffix_str_sha1hex, tmpdir]
  · by_cases h2 : fmt = "pdf" <;> simp [h1, h2, withSuffix_str_sha1hex, tmpdir]

theorem run_events_shape (lines : List String) (fmt outdir t : String)
    (de ae : Bool) (ex : Int) :
    (run ⟨lines, fmt, outdir, some t, de, ae, ex⟩).events =
      Event.checkDirExists (tmpdir outdir) ::
        ((if de then [] else [Event.mkdirParents (tmpdir outdir)]) ++
          [Event.spawn
              [t, "compile", "-",
                outdir ++ "/assets/typst_math" ++ "/" ++
                  sha1hex (strBytes (typstDoc lines)) ++
                  (if fmt = "html" then ".svg" else if fmt = "pdf" then ".pdf"
                    else ".png")]
              (tmpdir outdir),
           Event.writeStdinAndWait (strBytes (typstDoc lines))]) := by
  have h0 : (run ⟨lines, fmt, outdir, some t, de, ae, ex⟩).events =
      Event.checkDirExists (tmpdir outdir) ::
        ((if de then [] else [Event.mkdirParents (tmpdir outdir)]) ++
          [Event.spawn
              [t, "compile", "-",
                if fmt = "html" then
                  ((PyPath.mk (tmpdir outdir) (sha1hex (strBytes (typstDoc lines)))).withSuffix ".svg").str
                else if fmt = "pdf" then
                  ((PyPath.mk (tmpdir outdir) (sha1hex (strBytes (typstDoc lines)))).withSuffix ".pdf").str
                else
                  ((PyPath.mk (tmpdir outdir) (sha1hex (strBytes (typstDoc lines)))).withSuffix ".png").str]
              (tmpdir outdir),
           Event.writeStdinAndWait (strBytes (typstDoc lines))]) := by
    cases de <;> rfl
  rw [h0]
  by_cases h1 : fmt = "html"
  · simp [h1, withSuffix_str_sha1hex, tmpdir]
  · by_cases h2 : fmt = "pdf" <;> simp [h1, h2, withSuffix_str_sha1hex, tmpdir]

theorem run_result_some (lines : List String) (fmt outdir t : String)
    (de ae : Bool) (ex : Int) :
    (run ⟨lines, fmt, outdir, some t, de, ae, ex⟩).result =
      Except.ok
        [{ uri := outdir ++ "/assets/typst_math" ++ "/" ++
            sha1hex (strBytes (typstDoc lines)) ++ ".*",
           classes := ["typst-math"], align := "center" }] := by
  have h0 : (run ⟨lines, fmt, outdir, some t, de, ae, ex⟩).result =
      Except.ok
        [{ uri := ((PyPath.mk (tmpdir outdir)
              (sha1hex (strBytes (typstDoc lines)))).withSuffix ".*").str,
           classes := ["typst-math"], align := "center" }] := rfl
  rw [h0, withSuffix_str_sha1hex]
  rfl

theorem stdinWrites_run (lines : List String) (fmt outdir t : String)
    (de ae : Bool) (ex : Int) :
    stdinWrites (run ⟨lines, fmt, outdir, some t, de, ae, ex⟩) =
      [strBytes (typstDoc lines)] := by
  cases de <;> rfl

/-- Validation of the SHA-1 embedding against the standard test vector. -/
theorem sha1hex_abc :
    sha1hex (strBytes "abc") = "a9993e364706816aba3e25717850c26c9cd0d89d" := by
  decide

/-! ### Claims -/

/-- C1: for every non-empty sequence of expression lines, the artifact path
handed to the compiler is the cache directory `<outdir>/assets/typst_math`
joined with the lowercase hex SHA-1 digest of the templated document, where
the templated document is exactly the fixed page-sizing preamble, a blank
line, and the lines joined with newlines enclosed in `$ ... $`. -/
theorem run_artifact_path_is_digest (lines : List String) (fmt outdir t : String)
    (de ae : Bool) (ex : Int) (h : lines ≠ []) :
    ∃ ext, ext ∈ [".svg", ".pdf", ".png"] ∧
      targetPaths (run ⟨lines, fmt, outdir, some t, de, ae, ex⟩) =
        [outdir ++ "/assets/typst_math" ++ "/" ++
          sha1hex (strBytes
            ("#set page(width: auto, height: auto, margin: 3.14pt)\n\n$ " ++
              joinNl lines ++ " $")) ++ ext] := by
  refine ⟨if fmt = "html" then ".svg" else if fmt = "pdf" then ".pdf" else ".png",
    ?_, ?_⟩
  · by_cases h1 : fmt = "html"
    · simp [h1]
    · by_cases h2 : fmt = "pdf" <;> simp [h1, h2]
  · exact targetPaths_run lines fmt outdir t de ae ex

theorem run_artifact_path_is_digest_witness :
    (["x^2 + y^2 = z^2"] ≠ ([] : List String)) ∧
    (∃ ext, ext ∈ [".svg", ".pdf", ".png"] ∧
      targetPaths (run ⟨["x^2 + y^2 = z^2"], "html", "out", some "typst",
          false, false, 0⟩) =
        [("out" : String) ++ "/assets/typst_math" ++ "/" ++
          sha1hex (strBytes
            ("#set page(width: auto, height: auto, margin: 3.14pt)\n\n$ " ++
              joinNl ["x^2 + y^2 = z^2"] ++ " $")) ++ ext]) :=
  ⟨by decide,
    run_artifact_path_is_digest ["x^2 + y^2 = z^2"] "html" "out" "typst"
      false false 0 (by decide)⟩

/-- C2: the target path, the bytes hashed and sent to the compiler, and the
returned nodes are a deterministic function of the expression lines, the
output format and the build output directory alone — identical across calls
whatever the rest of the environment (compiler location, prior directory or
artifact state, exit status) looks like, hence unaffected by intervening
calls with other expressions. -/
theorem run_deterministic (lines : List String) (fmt outdir t1 t2 : String)
    (de1 de2 ae1 ae2 : Bool) (ex1 ex2 : Int) :
    targetPaths (run ⟨lines, fmt, outdir, some t1, de1, ae1, ex1⟩) =
      targetPaths (run ⟨lines, fmt, outdir, some t2, de2, ae2, ex2⟩) ∧
    stdinWrites (run ⟨lines, fmt, outdir, some t1, de1, ae1, ex1⟩) =
      stdinWrites (run ⟨lines, fmt, outdir, some t2, de2, ae2, ex2⟩) ∧
    resultNodes (run ⟨lines, fmt, outdir, some t1, de1, ae1, ex1⟩) =
      resultNodes (run ⟨lines, fmt, outdir, some t2, de2, ae2, ex2⟩) := by
  cases de1 <;> cases de2 <;> exact ⟨rfl, rfl, rfl⟩

/-- C3: the artifact extension is selected solely by the output format:
`html` yields `.svg`, `pdf` yields `.pdf`, and any other format yields
`.png`. -/
theorem run_extension_mapping (lines : List String) (outdir t fmt : String)
    (de ae : Bool) (ex : Int) (h1 : fmt ≠ "html") (h2 : fmt ≠ "pdf") :
    targetPaths (run ⟨lines, "html", outdir, some t, de, ae, ex⟩) =
      [outdir ++ "/assets/typst_math" ++ "/" ++
        sha1hex (strBytes (typstDoc lines)) ++ ".svg"] ∧
    targetPaths (run ⟨lines, "pdf", outdir, some t, de, ae, ex⟩) =
      [outdir ++ "/assets/typst_math" ++ "/" ++
        sha1hex (strBytes (typstDoc lines)) ++ ".pdf"] ∧
    targetPaths (run ⟨lines, fmt, outdir, some t, de, ae, ex⟩) =
      [outdir ++ "/assets/typst_math" ++ "/" ++
        sha1hex (strBytes (typstDoc lines)) ++ ".png"] := by
  refine ⟨?_, ?_, ?_⟩
  · have h := targetPaths_run lines "html" outdir t de ae ex
    simpa using h
  · have h := targetPaths_run lines "pdf" outdir t de ae ex
    simpa using h
  · have h := targetPaths_run lines fmt outdir t de ae ex
    simpa [h1, h2] using h

theorem run_extension_mapping_witness :
    (("latex" : String) ≠ "html") ∧ (("latex" : String) ≠ "pdf") ∧
    (targetPaths (run ⟨["x"], "html", "out", some "typst", false, false, 0⟩) =
      [("out" : String) ++ "/assets/typst_math" ++ "/" ++
        sha1hex (strBytes (typstDoc ["x"])) ++ ".svg"] ∧
     targetPaths (run ⟨["x"], "pdf", "out", some "typst", false, false, 0⟩) =
      [("out" : String) ++ "/assets/typst_math" ++ "/" ++
        sha1hex (strBytes (typstDoc ["x"])) ++ ".pdf"] ∧
     targetPaths (run ⟨["x"], "latex", "out", some "typst", false, false, 0⟩) =
      [("out" : String) ++ "/assets/typst_math" ++ "/" ++
        sha1hex (strBytes (typstDoc ["x"])) ++ ".png"]) :=
  ⟨by decide, by decide,
    run_extension_mapping ["x"] "out" "typst" "latex" false false 0
      (by decide) (by decide)⟩

/-- C4: on every call (with a resolvable compiler), the compiler is launched
exactly once with argument list `compile - <artifact-path>` and nothing else,
with working directory the cache directory, with the templated document
written to its standard input followed by a synchronous wait — and the call's
behaviour is identical whether or not the artifact already exists (no
existence check precedes the launch). -/
theorem run_invokes_compiler_unconditionally (lines : List String)
    (fmt outdir t : String) (de ae1 ae2 : Bool) (ex : Int) :
    run ⟨lines, fmt, outdir, some t, de, ae1, ex⟩ =
      run ⟨lines, fmt, outdir, some t, de, ae2, ex⟩ ∧
    (run ⟨lines, fmt, outdir, some t, de, ae1, ex⟩).events =
      Event.checkDirExists (tmpdir outdir) ::
        ((if de then [] else [Event.mkdirParents (tmpdir outdir)]) ++
          [Event.spawn
              [t, "compile", "-",
                outdir ++ "/assets/typst_math" ++ "/" ++
                  sha1hex (strBytes (typstDoc lines)) ++
                  (if fmt = "html" then ".svg" else if fmt = "pdf" then ".pdf"
                    else ".png")]
              (tmpdir outdir),
           Event.writeStdinAndWait (strBytes (typstDoc lines))]) :=
  ⟨rfl, run_events_shape lines fmt outdir t de ae1 ex⟩

/-- C5: `run` returns exactly one image node whose three attributes are the
artifact path with the wildcard extension `.*`, the single style class
`typst-math`, and center alignment — and the result is the same whatever the
subprocess exit status was and whether or not the artifact file exists. -/
theorem run_returns_single_image_node (lines : List String)
    (fmt outdir t : String) (de ae1 ae2 : Bool) (ex1 ex2 : Int) :
    (run ⟨lines, fmt, outdir, some t, de, ae1, ex1⟩).result =
      Except.ok
        [{ uri := outdir ++ "/assets/typst_math" ++ "/" ++
            sha1hex (strBytes (typstDoc lines)) ++ ".*",
           classes := ["typst-math"], align := "center" }] ∧
    (run ⟨lines, fmt, outdir, some t, de, ae1, ex1⟩).result =
      (run ⟨lines, fmt, outdir, some t, de, ae2, ex2⟩).result :=
  ⟨run_result_some lines fmt outdir t de ae1 ex1, rfl⟩

/-- C7: with a missing cache directory, `mkdir(parents=True)` runs before the
compiler subprocess and the directory exists afterwards; with an existing
cache directory, no creation is attempted and it still exists afterwards. -/
theorem run_creates_cache_dir (lines : List String) (fmt outdir t : String)
    (ae : Bool) (ex : Int) :
    (run ⟨lines, fmt, outdir, some t, false, ae, ex⟩).events =
      Event.checkDirExists (tmpdir outdir) ::
        Event.mkdirParents (tmpdir outdir) ::
        [Event.spawn
            [t, "compile", "-",
              outdir ++ "/assets/typst_math" ++ "/" ++
                sha1hex (strBytes (typstDoc lines)) ++
                (if fmt = "html" then ".svg" else if fmt = "pdf" then ".pdf"
                  else ".png")]
            (tmpdir outdir),
         Event.writeStdinAndWait (strBytes (typstDoc lines))] ∧
    dirExistsAfter false (tmpdir outdir)
      (run ⟨lines, fmt, outdir, some t, false, ae, ex⟩) ∧
    mkdirCalls (run ⟨lines, fmt, outdir, some t, true, ae, ex⟩) = [] ∧
    dirExistsAfter true (tmpdir outdir)
      (run ⟨lines, fmt, outdir, some t, true, ae, ex⟩) := by
  have hev := run_events_shape lines fmt outdir t false ae ex
  refine ⟨hev, Or.inr ?_, rfl, Or.inl rfl⟩
  rw [hev]
  simp

/-- C8 counterexample: when `shutil.which` fails to resolve the compiler, the
code does not surface a distinct compiler-unavailable error kind; the call
fails with the generic invalid-program error raised by `subprocess.Popen`. -/
theorem run_missing_compiler_not_distinct_error :
    (run ⟨["x"], "html", "out", none, false, false, 0⟩).result =
      Except.error RunError.popenInvalidProgram ∧
    (run ⟨["x"], "html", "out", none, false, false, 0⟩).result ≠
      Except.error RunError.compilerUnavailable := by
  refine ⟨rfl, fun h => ?_⟩
  have h2 : (Except.error RunError.popenInvalidProgram :
      Except RunError (List ImageNode)) =
      Except.error RunError.compilerUnavailable := h
  exact absurd (Except.error.inj h2) (by decide)

/-- C8 amended: when the configured compiler name does not resolve, the code
performs no availability check and reports no distinct error kind; the cache
directory is still created, no compile subprocess is ever started and nothing
is written to any standard input, and the call fails with the generic
invalid-program error raised at subprocess launch. -/
theorem run_missing_compiler_behavior (lines : List String)
    (fmt outdir : String) (de ae : Bool) (ex : Int) :
    (run ⟨lines, fmt, outdir, none, de, ae, ex⟩).result =
      Except.error RunError.popenInvalidProgram ∧
    spawnEvents (run ⟨lines, fmt, outdir, none, de, ae, ex⟩) = [] ∧
    stdinWrites (run ⟨lines, fmt, outdir, none, de, ae, ex⟩) = [] ∧
    (run ⟨lines, fmt, outdir, none, de, ae, ex⟩).events =
      Event.checkDirExists (tmpdir outdir) ::
        (if de then [] else [Event.mkdirParents (tmpdir outdir)]) := by
  cases de <;> exact ⟨rfl, rfl, rfl, rfl⟩

/-- C6 counterexample: the Content Key is a fixed-length digest while there
are unboundedly many byte-distinct templated documents, so two byte-distinct
templated documents with identical Content Keys must exist — the claimed
universal injectivity is false. -/
theorem typstDoc_digest_collision_exists :
    ∃ l1 l2 : List String,
      strBytes (typstDoc l1) ≠ strBytes (typstDoc l2) ∧
      sha1hex (strBytes (typstDoc l1)) = sha1hex (strBytes (typstDoc l2)) := by
  obtain ⟨n, m, hnm, hEq⟩ := Finite.exists_ne_map_eq_of_infinite
    (fun n : ℕ =>
      (⟨sha1Nat (strBytes (typstDoc [⟨List.replicate n 'a'⟩])),
        sha1Nat_lt _⟩ :
        Fin 1461501637330902918203684832716283019655932542976))
  refine ⟨[⟨List.replicate n 'a'⟩], [⟨List.replicate m 'a'⟩], ?_, ?_⟩
  · intro hbytes
    apply hnm
    have hlen := congrArg List.length hbytes
    rw [docBytes_length, docBytes_length] at hlen
    omega
  · have h2 : sha1Nat (strBytes (typstDoc [⟨List.replicate n 'a'⟩])) =
        sha1Nat (strBytes (typstDoc [⟨List.replicate m 'a'⟩])) := by
      have h3 := congrArg Fin.val hEq
      simpa using h3
    rw [sha1hex, sha1hex, h2]

/-- C6 amended: byte-distinct templated documents yield distinct Content Keys
except for the in-principle digest collisions a fixed-length digest cannot
avoid; no normalization is performed before hashing, so in particular the
whitespace variants `["x+y"]` and `["x + y"]` produce different document
bytes, different Content Keys and different artifact paths. -/
theorem run_whitespace_sensitivity :
    strBytes (typstDoc ["x+y"]) ≠ strBytes (typstDoc ["x + y"]) ∧
    sha1hex (strBytes (typstDoc ["x+y"])) ≠
      sha1hex (strBytes (typstDoc ["x + y"])) ∧
    targetPaths (run ⟨["x+y"], "html", "out", some "typst", false, false, 0⟩) ≠
      targetPaths (run ⟨["x + y"], "html", "out", some "typst", false, false, 0⟩) := by
  refine ⟨by decide, by decide, by decide⟩

/-- C9: the Content Key is independent of the requested output format — for
fixed expression lines, any two formats give artifact paths with the same
digest base filename in the same cache directory, differing only in their
extension. -/
theorem run_digest_format_independent (lines : List String) (outdir t : String)
    (f1 f2 : String) (de ae : Bool) (ex : Int) :
    targetPaths (run ⟨lines, f1, outdir, some t, de, ae, ex⟩) =
      [outdir ++ "/assets/typst_math" ++ "/" ++
        sha1hex (strBytes (typstDoc lines)) ++
        (if f1 = "html" then ".svg" else if f1 = "pdf" then ".pdf" else ".png")] ∧
    targetPaths (run ⟨lines, f2, outdir, some t, de, ae, ex⟩) =
      [outdir ++ "/assets/typst_math" ++ "/" ++
        sha1hex (strBytes (typstDoc lines)) ++
        (if f2 = "html" then ".svg" else if f2 = "pdf" then ".pdf" else ".png")] :=
  ⟨targetPaths_run lines f1 outdir t de ae ex,
   targetPaths_run lines f2 outdir t de ae ex⟩

/-- C10: the byte sequence hashed to form the Content Key is exactly the byte
sequence written to the compiler subprocess's standard input — the UTF-8
encoding of the one templated document — so the artifact filename
content-addresses precisely what was compiled. -/
theorem run_hashes_exactly_stdin (lines : List String) (fmt outdir t : String)
    (de ae : Bool) (ex : Int) :
    stdinWrites (run ⟨lines, fmt, outdir, some t, de, ae, ex⟩) =
      [strBytes (typstDoc lines)] ∧
    targetPaths (run ⟨lines, fmt, outdir, some t, de, ae, ex⟩) =
      [outdir ++ "/assets/typst_math" ++ "/" ++
        sha1hex (strBytes (typstDoc lines)) ++
        (if fmt = "html" then ".svg" else if fmt = "pdf" then ".pdf" else ".png")] :=
  ⟨stdinWrites_run lines fmt outdir t de ae ex,
   targetPaths_run lines fmt outdir t de ae ex⟩
